import Mathlib

/-!
Verification of gulp-labelizer (src/index.js).

The plugin keeps a set of content hashes of already-labeled files, loaded
from and persisted to a JSON record file (labeled.json), and exposes three
pipeline stages built with through2-concurrent: a filter that drops items
whose content hash is already recorded, a label stage that records the
hash, and a dump stage that rewrites the record file.

Embedding choices:
- a vinyl file is a path plus an optional content buffer (a list of bytes);
  file.isNull() holds exactly when the buffer is absent;
- the content hash (the hasha library, outside this repository) is modelled
  from the spec as a deterministic function of the content buffer;
- the serialization boundary is embedded at the JSON-value level: the record
  file on disk is either absent, present-but-invalid JSON, or a parsed JSON
  value; JSON.parse maps the invalid case to a SyntaxError and JSON.stringify
  of the spread set is the array value of the set elements;
- a JS Set of strings is a duplicate-free list in insertion order, with
  Set.prototype.add appending when absent and the Set constructor folding
  add over the iterable (characters, for a string argument; a TypeError for
  non-iterable arguments; the empty set for null);
- a stage transformer maps the module state (in-memory set plus record file)
  and an incoming file to the updated state together with a completion
  outcome: forward the file, drop it, or fail with an error (a thrown
  ReferenceError in the transformer is the error outcome).
-/

/-- JSON values a record file can parse to, as far as the plugin is
concerned: arrays of hash strings (what persist writes), plus the other
shapes a hand-edited file could hold. -/
inductive JSValue where
  | arr (elems : List String)
  | str (s : String)
  | num (n : Int)
  | obj
  | jsBool (b : Bool)
  | jsNull
deriving DecidableEq, Repr

/-- State of the on-disk record file labeled.json. -/
inductive FileContent where
  | absent
  | invalid
  | json (v : JSValue)
deriving DecidableEq, Repr

/-- Vinyl file item flowing through the pipeline: a path and an optional
content buffer of bytes; contents = none models file.isNull(). -/
structure VinylFile where
  path : String
  contents : Option (List Nat)
deriving DecidableEq, Repr

/-- Test for an absent content buffer, mirroring vinyl's file.isNull(). -/
def VinylFile.isNull (f : VinylFile) : Bool := f.contents.isNone

/-- Modelled from the spec: the hasha library (not part of this repository)
computes a deterministic content hash of the buffer. Any injection on byte
lists is a faithful model; we use the printed form of the byte list. -/
def hasha (buf : List Nat) : String := toString buf

/-- Membership test of a JS Set of strings (Set.prototype.has). -/
def setHas (s : List String) (h : String) : Bool := decide (h ∈ s)

/-- Insertion into a JS Set of strings (Set.prototype.add): a no-op when the
element is present, otherwise appended at the end (insertion order). -/
def setAdd (s : List String) (h : String) : List String :=
  if h ∈ s then s else s ++ [h]

/-- Construction of a JS Set from a list of strings, folding add over the
elements in order, as the Set constructor iterates its argument. -/
def setFromList (l : List String) : List String := l.foldl setAdd []

/-- Individual characters of a string, each as a one-character string: what
iterating a JS string yields. -/
def jsStringChars (s : String) : List String :=
  s.toList.map (fun c => String.mk [c])

/-- Modelled JS Set constructor applied to a parsed JSON value: an array
yields the set of its elements, a string the set of its characters, null the
empty set, and any non-iterable value raises a TypeError. -/
def newSetFromJS : JSValue → Except String (List String)
  | JSValue.arr xs => Except.ok (setFromList xs)
  | JSValue.str s => Except.ok (setFromList (jsStringChars s))
  | JSValue.jsNull => Except.ok []
  | JSValue.num _ => Except.error "TypeError: number is not iterable"
  | JSValue.obj => Except.error "TypeError: object is not iterable"
  | JSValue.jsBool _ => Except.error "TypeError: boolean is not iterable"

/-- Embedding of _getLabeledFiles (src/index.js lines 48-52): when the
record file exists its text is passed to JSON.parse (a SyntaxError when the
text is not valid JSON), otherwise the empty array is returned. -/
def _getLabeledFiles : FileContent → Except String JSValue
  | FileContent.absent => Except.ok (JSValue.arr [])
  | FileContent.invalid => Except.error "SyntaxError: Unexpected token in JSON"
  | FileContent.json v => Except.ok v

/-- Embedding of the module initialization on line 31,
labeledSet = new Set(_getLabeledFiles()): the lazily-loaded in-memory set,
or the error that loading raises. -/
def labeledSetInit (f : FileContent) : Except String (List String) :=
  _getLabeledFiles f >>= newSetFromJS

/-- Process-wide module state the stages share: the in-memory labeled set
and the on-disk record file. -/
structure ModuleState where
  labeledSet : List String
  recordFile : FileContent
deriving DecidableEq, Repr

/-- Outcome a stage transformer signals through its completion callback:
next(null, file) forwards, next() drops, and next(error) or a thrown
exception fails the stream. -/
inductive StageResult (α : Type) where
  | forward (a : α)
  | drop
  | error (msg : String)
deriving DecidableEq, Repr

/-- Embedding of _filterNotLabled (src/index.js lines 60-66): a null file is
forwarded unchanged; otherwise the item is dropped exactly when the set
already has the content hash, and forwarded unchanged otherwise. -/
def _filterNotLabled (st : ModuleState) (file : VinylFile) :
    ModuleState × StageResult VinylFile :=
  match file.contents with
  | none => (st, StageResult.forward file)
  | some buf =>
    let hasExisted := setHas st.labeledSet (hasha buf)
    if hasExisted then (st, StageResult.drop) else (st, StageResult.forward file)

/-- Embedding of _labelFile (src/index.js lines 74-80): a null file is
forwarded unchanged; otherwise the content hash is added to the set and the
file is forwarded unchanged. -/
def _labelFile (st : ModuleState) (file : VinylFile) :
    ModuleState × StageResult VinylFile :=
  match file.contents with
  | none => (st, StageResult.forward file)
  | some buf =>
    (⟨setAdd st.labeledSet (hasha buf), st.recordFile⟩, StageResult.forward file)

/-- Embedding of _dumpToRecordJSON (src/index.js lines 88-95): a null file
is forwarded unchanged; otherwise the spread of the set is stringified and
synchronously written over the record file, after which line 94 evaluates
cb(null, file) where cb is an undefined identifier, so the transformer
throws a ReferenceError instead of invoking the supplied callback next. -/
def _dumpToRecordJSON (st : ModuleState) (file : VinylFile) :
    ModuleState × StageResult VinylFile :=
  match file.contents with
  | none => (st, StageResult.forward file)
  | some _ =>
    let st1 : ModuleState := ⟨st.labeledSet, FileContent.json (JSValue.arr st.labeledSet)⟩
    (st1, StageResult.error "ReferenceError: cb is not defined")

/-- Object-mode stream stage as built by through2-concurrent: a concurrency
cap together with the wrapped transformer. -/
structure ThroughStream where
  maxConcurrency : Nat
  transformer : ModuleState → VinylFile → ModuleState × StageResult VinylFile

/-- Embedding of createThroughStream (src/index.js lines 38-42): wraps a
transformer with maxConcurrency 8. -/
def createThroughStream
    (t : ModuleState → VinylFile → ModuleState × StageResult VinylFile) :
    ThroughStream :=
  ⟨8, t⟩

/-- Exported factory Labelizer.notLabled (src/index.js line 98). -/
def Labelizer.notLabled : Unit → ThroughStream :=
  fun _ => createThroughStream _filterNotLabled

/-- Exported factory Labelizer.label (src/index.js line 99). -/
def Labelizer.label : Unit → ThroughStream :=
  fun _ => createThroughStream _labelFile

/-- Exported factory Labelizer.dump (src/index.js line 100). -/
def Labelizer.dump : Unit → ThroughStream :=
  fun _ => createThroughStream _dumpToRecordJSON

/-- Modelled from the spec: a run of a through2-concurrent stage over a
list of items (the sequential schedule, one valid interleaving of the
bounded-concurrency scheduler). Forwarded items are emitted downstream in
processing order, dropped items vanish, and an error terminates the stream:
items after the error are never processed. Returns the final module state,
the downstream items and the stream error, when one occurred. -/
def runStage (t : ModuleState → VinylFile → ModuleState × StageResult VinylFile) :
    ModuleState → List VinylFile → ModuleState × List VinylFile × Option String
  | st, [] => (st, [], none)
  | st, f :: fs =>
    match t st f with
    | (st1, StageResult.forward g) =>
      match runStage t st1 fs with
      | (st2, out, e) => (st2, g :: out, e)
    | (st1, StageResult.drop) => runStage t st1 fs
    | (st1, StageResult.error m) => (st1, [], some m)

/-- During a run of a stage from a given state over a given item list, some
processed item was explicitly forwarded as the given output item. Only items
reached before any stream error are covered, since later items are never
processed. -/
inductive ForwardedIn
    (t : ModuleState → VinylFile → ModuleState × StageResult VinylFile) :
    ModuleState → List VinylFile → VinylFile → Prop where
  | head {st st1 : ModuleState} {f g : VinylFile} {fs : List VinylFile} :
      t st f = (st1, StageResult.forward g) → ForwardedIn t st (f :: fs) g
  | tailForward {st st1 : ModuleState} {f g y : VinylFile} {fs : List VinylFile} :
      t st f = (st1, StageResult.forward g) → ForwardedIn t st1 fs y →
      ForwardedIn t st (f :: fs) y
  | tailDrop {st st1 : ModuleState} {f y : VinylFile} {fs : List VinylFile} :
      t st f = (st1, StageResult.drop) → ForwardedIn t st1 fs y →
      ForwardedIn t st (f :: fs) y

lemma mem_setAdd {s : List String} {h x : String} :
    x ∈ setAdd s h ↔ x ∈ s ∨ x = h := by
  unfold setAdd
  by_cases hx : h ∈ s
  · simp only [if_pos hx]
    constructor
    · exact Or.inl
    · rintro (hm | rfl)
      · exact hm
      · exact hx
  · simp [if_neg hx]

lemma mem_foldl_setAdd (l : List String) :
    ∀ (acc : List String) (x : String),
      x ∈ l.foldl setAdd acc ↔ x ∈ acc ∨ x ∈ l := by
  induction l with
  | nil => intro acc x; simp
  | cons a l ih =>
    intro acc x
    simp only [List.foldl_cons, ih, mem_setAdd, List.mem_cons]
    tauto

lemma mem_setFromList {l : List String} {x : String} :
    x ∈ setFromList l ↔ x ∈ l := by
  unfold setFromList
  rw [mem_foldl_setAdd]
  simp

lemma forwardedIn_mem_runStage
    (t : ModuleState → VinylFile → ModuleState × StageResult VinylFile)
    (st : ModuleState) (l : List VinylFile) (y : VinylFile)
    (hf : ForwardedIn t st l y) : y ∈ (runStage t st l).2.1 := by
  induction hf with
  | head hstep =>
    simp only [runStage, hstep]
    rcases hr : runStage _ _ _ with ⟨st2, out, e⟩
    simp
  | tailForward hstep _ ih =>
    simp only [runStage, hstep]
    revert ih
    rcases hr : runStage _ _ _ with ⟨st2, out, e⟩
    intro ih
    simp only [hr] at ih
    simp [ih]
  | tailDrop hstep _ ih =>
    simp only [runStage, hstep]
    exact ih

/-- C1: the dump stage on a concrete labeled item (hash set \x7b"x"\x7d, a file
with content bytes [1, 2]): the record file is synchronously rewritten with
the set, but the item is not forwarded through the supplied completion
callback; line 94 references the undefined identifier cb, so the transformer
fails with a ReferenceError. -/
theorem dumpToRecordJSON_cb_defect :
    _dumpToRecordJSON ⟨["x"], FileContent.absent⟩ ⟨"f", some [1, 2]⟩
      = (⟨["x"], FileContent.json (JSValue.arr ["x"])⟩,
         StageResult.error "ReferenceError: cb is not defined") := rfl

/-- C2: for an item with a present content buffer the filter stage leaves
the record set (and the whole module state) unchanged, drops the item
exactly when the set has the content hash, and forwards it unchanged
otherwise; and for a record set having hash(A) but not hash(B), running the
filter stage over [A, B] yields exactly [B] downstream, with no error. -/
theorem filterNotLabled_correct :
    (∀ (st : ModuleState) (f : VinylFile) (buf : List Nat),
      f.contents = some buf →
      (_filterNotLabled st f).1 = st ∧
      ((_filterNotLabled st f).2 = StageResult.drop ↔ hasha buf ∈ st.labeledSet) ∧
      (hasha buf ∉ st.labeledSet →
        _filterNotLabled st f = (st, StageResult.forward f))) ∧
    (∀ (st : ModuleState) (A B : VinylFile) (a b : List Nat),
      A.contents = some a → B.contents = some b →
      hasha a ∈ st.labeledSet → hasha b ∉ st.labeledSet →
      runStage _filterNotLabled st [A, B] = (st, [B], none)) := by
  constructor
  · intro st f buf hc
    simp only [_filterNotLabled, hc, setHas]
    by_cases hm : hasha buf ∈ st.labeledSet
    · simp [hm]
    · simp [hm]
  · intro st A B a b ha hb hain hbout
    simp [runStage, _filterNotLabled, ha, hb, setHas, hain, hbout]

/-- C2 witness: the filter characterization and the [A, B] scenario at a
concrete record set containing hash([1]) but not hash([2]). -/
theorem filterNotLabled_correct_witness :
    runStage _filterNotLabled ⟨[hasha [1]], FileContent.absent⟩
      [⟨"A", some [1]⟩, ⟨"B", some [2]⟩]
      = (⟨[hasha [1]], FileContent.absent⟩, [⟨"B", some [2]⟩], none) :=
  filterNotLabled_correct.2 ⟨[hasha [1]], FileContent.absent⟩
    ⟨"A", some [1]⟩ ⟨"B", some [2]⟩ [1] [2] rfl rfl (by decide) (by decide)

/-- C3: loading the record at module initialization yields the empty set
when the record file is absent, the set of a JSON array's elements when the
file parses to an array, and a propagated parse error when the file exists
but holds invalid JSON. -/
theorem labeledSetInit_load_behavior :
    labeledSetInit FileContent.absent = Except.ok [] ∧
    (∀ xs : List String,
      labeledSetInit (FileContent.json (JSValue.arr xs))
        = Except.ok (setFromList xs)) ∧
    (∃ e : String, labeledSetInit FileContent.invalid = Except.error e) := by
  refine ⟨rfl, fun xs => rfl, "SyntaxError: Unexpected token in JSON", rfl⟩

/-- C4: the dump stage's persist followed by a fresh load (a process restart
with the written record file present) reproduces the in-memory set of
hashes, equal to the persisted one order-insensitively (as finsets). -/
theorem persist_load_roundtrip (st : ModuleState) (f : VinylFile)
    (buf : List Nat) (hc : f.contents = some buf) :
    labeledSetInit ((_dumpToRecordJSON st f).1).recordFile
      = Except.ok (setFromList st.labeledSet) ∧
    (setFromList st.labeledSet).toFinset = st.labeledSet.toFinset := by
  constructor
  · simp [_dumpToRecordJSON, hc, labeledSetInit, _getLabeledFiles, newSetFromJS,
      Bind.bind, Except.bind]
  · ext x
    simp [List.mem_toFinset, mem_setFromList]

/-- C4 witness: the round trip at the concrete state with set ["a", "b"]
and a file with content bytes [1]. -/
theorem persist_load_roundtrip_witness :
    labeledSetInit ((_dumpToRecordJSON ⟨["a", "b"], FileContent.absent⟩
        ⟨"f", some [1]⟩).1).recordFile
      = Except.ok (setFromList ["a", "b"]) ∧
    (setFromList ["a", "b"]).toFinset = (["a", "b"] : List String).toFinset :=
  persist_load_roundtrip ⟨["a", "b"], FileContent.absent⟩ ⟨"f", some [1]⟩ [1] rfl

/-- C5: for an item with a present content buffer the label stage adds the
content hash to the record set and forwards the item unchanged; and on any
item whatsoever the label stage forwards the item unchanged, never dropping
or erroring. -/
theorem labelFile_correct :
    (∀ (st : ModuleState) (f : VinylFile) (buf : List Nat),
      f.contents = some buf →
      _labelFile st f
        = (⟨setAdd st.labeledSet (hasha buf), st.recordFile⟩,
           StageResult.forward f)) ∧
    (∀ (st : ModuleState) (f : VinylFile),
      (_labelFile st f).2 = StageResult.forward f) := by
  constructor
  · intro st f buf hc
    simp [_labelFile, hc]
  · intro st f
    cases hf : f.contents <;> simp [_labelFile, hf]

/-- C5 witness: labeling a concrete file with content bytes [3] under the
empty record set adds its hash and forwards the file. -/
theorem labelFile_correct_witness :
    _labelFile ⟨[], FileContent.absent⟩ ⟨"f", some [3]⟩
      = (⟨setAdd [] (hasha [3]), FileContent.absent⟩,
         StageResult.forward ⟨"f", some [3]⟩) :=
  labelFile_correct.1 ⟨[], FileContent.absent⟩ ⟨"f", some [3]⟩ [3] rfl

/-- C6: an item with an absent content buffer is forwarded unchanged by all
three stages, with the module state (the record set and the record file)
untouched, whatever the record set holds. -/
theorem nullContent_passthrough (st : ModuleState) (f : VinylFile)
    (hc : f.contents = none) :
    _filterNotLabled st f = (st, StageResult.forward f) ∧
    _labelFile st f = (st, StageResult.forward f) ∧
    _dumpToRecordJSON st f = (st, StageResult.forward f) := by
  refine ⟨?_, ?_, ?_⟩ <;>
    simp [_filterNotLabled, _labelFile, _dumpToRecordJSON, hc]

/-- C6 witness: the three stages at a concrete null-content file and the
record set ["h"]. -/
theorem nullContent_passthrough_witness :
    _filterNotLabled ⟨["h"], FileContent.absent⟩ ⟨"d", none⟩
      = (⟨["h"], FileContent.absent⟩, StageResult.forward ⟨"d", none⟩) ∧
    _labelFile ⟨["h"], FileContent.absent⟩ ⟨"d", none⟩
      = (⟨["h"], FileContent.absent⟩, StageResult.forward ⟨"d", none⟩) ∧
    _dumpToRecordJSON ⟨["h"], FileContent.absent⟩ ⟨"d", none⟩
      = (⟨["h"], FileContent.absent⟩, StageResult.forward ⟨"d", none⟩) :=
  nullContent_passthrough ⟨["h"], FileContent.absent⟩ ⟨"d", none⟩ rfl

/-- C7: adding a hash to a JS Set is idempotent: for every set state and
hash, a second add is an observable no-op, so the set and its size are
unchanged after the second call; accordingly, labeling the same item twice
leaves the record set after the first labeling unchanged. -/
theorem setAdd_idempotent :
    (∀ (s : List String) (h : String), setAdd (setAdd s h) h = setAdd s h) ∧
    (∀ (s : List String) (h : String),
      (setAdd (setAdd s h) h).length = (setAdd s h).length) ∧
    (∀ (st : ModuleState) (f : VinylFile) (buf : List Nat),
      f.contents = some buf →
      (_labelFile (_labelFile st f).1 f).1 = (_labelFile st f).1) := by
  have hidem : ∀ (s : List String) (h : String), setAdd (setAdd s h) h = setAdd s h := by
    intro s h
    by_cases hs : h ∈ s <;> simp [setAdd, hs]
  refine ⟨hidem, fun s h => by rw [hidem], ?_⟩
  intro st f buf hc
  simp [_labelFile, hc, hidem]

/-- C7 witness: a second add of "h" to the concrete set ["g", "h"] changes
nothing, and double-labeling a concrete file keeps the record set. -/
theorem setAdd_idempotent_witness :
    (_labelFile (_labelFile ⟨["g"], FileContent.absent⟩ ⟨"f", some [7]⟩).1
      ⟨"f", some [7]⟩).1
      = (_labelFile ⟨["g"], FileContent.absent⟩ ⟨"f", some [7]⟩).1 :=
  setAdd_idempotent.2.2 ⟨["g"], FileContent.absent⟩ ⟨"f", some [7]⟩ [7] rfl

/-- C8: each exported factory (notLabled, label, dump) builds its stage via
createThroughStream with the default concurrency cap 8, and in the modelled
scheduler a run of a stage loses no item the transformer explicitly
forwards: every item forwarded during the run is in the downstream output. -/
theorem throughStream_concurrency_no_loss :
    ((Labelizer.notLabled ()).maxConcurrency = 8 ∧
     (Labelizer.label ()).maxConcurrency = 8 ∧
     (Labelizer.dump ()).maxConcurrency = 8) ∧
    ((Labelizer.notLabled ()).transformer = _filterNotLabled ∧
     (Labelizer.label ()).transformer = _labelFile ∧
     (Labelizer.dump ()).transformer = _dumpToRecordJSON) ∧
    (∀ (t : ModuleState → VinylFile → ModuleState × StageResult VinylFile)
       (st : ModuleState) (l : List VinylFile) (y : VinylFile),
      ForwardedIn t st l y → y ∈ (runStage t st l).2.1) :=
  ⟨⟨rfl, rfl, rfl⟩, ⟨rfl, rfl, rfl⟩,
    fun t st l y hf => forwardedIn_mem_runStage t st l y hf⟩

/-- C8 witness: a concrete item forwarded by the label stage appears in the
downstream output of the run. -/
theorem throughStream_concurrency_no_loss_witness :
    (⟨"f", some [1]⟩ : VinylFile)
      ∈ (runStage _labelFile ⟨[], FileContent.absent⟩ [⟨"f", some [1]⟩]).2.1 :=
  throughStream_concurrency_no_loss.2.2 _labelFile ⟨[], FileContent.absent⟩
    [⟨"f", some [1]⟩] ⟨"f", some [1]⟩
    (@ForwardedIn.head _labelFile ⟨[], FileContent.absent⟩
      ⟨setAdd [] (hasha [1]), FileContent.absent⟩ ⟨"f", some [1]⟩
      ⟨"f", some [1]⟩ [] rfl)

/-- C9 counterexample: a record file holding the valid JSON value null is
not an array or a string, yet loading does not throw; the JS Set
constructor maps null to the empty set, so module initialization succeeds
with an empty record set. -/
theorem labeledSetInit_null_no_throw :
    labeledSetInit (FileContent.json JSValue.jsNull) = Except.ok [] ∧
    ∀ e : String,
      labeledSetInit (FileContent.json JSValue.jsNull) ≠ Except.error e := by
  exact ⟨rfl, fun e h => by simp [labeledSetInit, _getLabeledFiles,
    newSetFromJS, Bind.bind, Except.bind] at h⟩

/-- C9 (amended): a record file holding valid JSON that is neither an array,
a string nor null (an object, a number or a boolean) makes loading throw a
TypeError from the Set constructor — a fatal load failure beyond the
invalid-JSON case; a JSON string yields the set of its individual
characters; a JSON null yields the empty set. -/
theorem labeledSetInit_nonarray_behavior :
    (∀ n : Int, ∃ e : String,
      labeledSetInit (FileContent.json (JSValue.num n)) = Except.error e) ∧
    (∃ e : String,
      labeledSetInit (FileContent.json JSValue.obj) = Except.error e) ∧
    (∀ b : Bool, ∃ e : String,
      labeledSetInit (FileContent.json (JSValue.jsBool b)) = Except.error e) ∧
    (∀ s : String,
      labeledSetInit (FileContent.json (JSValue.str s))
        = Except.ok (setFromList (jsStringChars s))) ∧
    labeledSetInit (FileContent.json JSValue.jsNull) = Except.ok [] := by
  refine ⟨fun n => ⟨"TypeError: number is not iterable", rfl⟩,
    ⟨"TypeError: object is not iterable", rfl⟩,
    fun b => ⟨"TypeError: boolean is not iterable", rfl⟩,
    fun s => rfl, rfl⟩

/-- C10: the dump stage never modifies the in-memory record set: for every
module state and item the set after a dump invocation equals the set before
it; only the record file component of the state is written. -/
theorem dumpToRecordJSON_preserves_set (st : ModuleState) (f : VinylFile) :
    ((_dumpToRecordJSON st f).1).labeledSet = st.labeledSet := by
  cases hc : f.contents <;> simp [_dumpToRecordJSON, hc]
